import Mathlib

/-!
Shallow embedding of the projector tool (src/main.rs): directory listing,
the interactive navigation state machine, the tmux session launcher, and the
terminal acquire/release skeleton of `run`.
-/

namespace Projector

/-- Byte/codepoint lexicographic comparison on lists of characters. This models
the Rust `Ord` instance on `String`, which compares byte-wise; on UTF-8 data the
byte order coincides with the codepoint order, so comparing `Char.toNat`
lexicographically is the same relation. -/
def lexLe : List Char → List Char → Bool
  | [], _ => true
  | _ :: _, [] => false
  | a :: as, b :: bs =>
    if a.toNat < b.toNat then true
    else if b.toNat < a.toNat then false
    else lexLe as bs

/-- The string order used by `dirs.sort()` in `get_directories`. -/
def strLe (a b : String) : Bool := lexLe a.data b.data

/-- Propositional form of `strLe`, used as the sorting relation. -/
def StrLe (a b : String) : Prop := strLe a b = true

instance : DecidableRel StrLe := fun a b =>
  inferInstanceAs (Decidable (strLe a b = true))

instance : IsTrans String StrLe := by
  refine ⟨fun a b c => ?_⟩
  show lexLe a.data b.data = true → lexLe b.data c.data = true →
    lexLe a.data c.data = true
  generalize a.data = l1
  generalize b.data = l2
  generalize c.data = l3
  induction l1 generalizing l2 l3 with
  | nil => intro _ _; rfl
  | cons x as ih =>
    intro hab hbc
    cases l2 with
    | nil => simp [lexLe] at hab
    | cons y bs =>
      cases l3 with
      | nil => simp [lexLe] at hbc
      | cons z cs =>
        simp only [lexLe] at hab hbc ⊢
        split_ifs at hab hbc ⊢ <;>
          first
            | rfl
            | omega
            | (exact ih bs cs hab hbc)

instance : IsTotal String StrLe := by
  refine ⟨fun a b => ?_⟩
  show lexLe a.data b.data = true ∨ lexLe b.data a.data = true
  generalize a.data = l1
  generalize b.data = l2
  induction l1 generalizing l2 with
  | nil => exact Or.inl rfl
  | cons x as ih =>
    cases l2 with
    | nil => exact Or.inr rfl
    | cons y bs =>
      simp only [lexLe]
      split_ifs <;> first | (exact Or.inl rfl) | (exact Or.inr rfl) | omega |
        (exact ih bs)

/-- First-character test modelling `name_str.starts_with('.')`. -/
def startsWithDot (s : String) : Bool :=
  match s.data with
  | [] => false
  | c :: _ => c = '.'

/-- Character-wise lower-casing, modelling `str::to_lowercase` (they agree on
ASCII session names, which is all the program ever produces). -/
def lowercase (s : String) : String := ⟨s.data.map Char.toLower⟩

/-- One directory entry as observed by `get_directories`: whether
`entry_path.is_dir()` holds, and the final path segment as seen through
`file_name().and_then(to_str)` — `some s` when the segment exists and is valid
UTF-8, `none` when either nested `if let` fails (both cases are skipped by the
same fall-through). -/
structure FsEntry where
  isDir : Bool
  name : Option String
deriving DecidableEq

/-- An abstract filesystem: `read_dir` on a path (a list of segments below some
root) either fails (`none`) or yields the entries in OS order, where an inner
`none` is an errored `DirEntry` skipped by `entries.flatten()`. -/
abbrev Fs := List String → Option (List (Option FsEntry))

/-- The body of the per-entry loop in `get_directories`: the name pushed for
this entry, if any. -/
def entryVisibleDirName (e : FsEntry) : Option String :=
  if e.isDir then
    match e.name with
    | some s => if startsWithDot s then none else some s
    | none => none
  else none

/-- Model of `get_directories` (src/main.rs lines 18-39): on a failed
`read_dir` return the empty list; otherwise keep the visible directory names
and sort them. Rust uses a stable merge sort under its byte order; since
`StrLe` is antisymmetric the sorted permutation of a list of names is unique,
so the structurally recursive insertion sort computes the same list. -/
def get_directories (fs : Fs) (path : List String) : List String :=
  match fs path with
  | none => []
  | some entries =>
    ((entries.filterMap id).filterMap entryVisibleDirName).insertionSort StrLe

/-- The mutable state of the browser loop in `run` (src/main.rs lines 168-171):
`current_path`, `path_stack`, `items` and `selected`. Paths are lists of
segments below the fixed root; the stack grows at the head (the head is the
most recently pushed path, i.e. the top of the Rust `Vec`). -/
structure NavState where
  current_path : List String
  path_stack : List (List String)
  items : List String
  selected : Nat
deriving DecidableEq

/-- The `KeyCode::Up | KeyCode::Char(k)` arm of the loop:
`if !items.is_empty() && selected > 0 { selected -= 1 }`. -/
def moveUp (s : NavState) : NavState :=
  if ¬ s.items.isEmpty ∧ 0 < s.selected then
    ⟨s.current_path, s.path_stack, s.items, s.selected - 1⟩
  else s

/-- The `KeyCode::Down | KeyCode::Char(j)` arm of the loop:
`if !items.is_empty() && selected < items.len() - 1 { selected += 1 }`. -/
def moveDown (s : NavState) : NavState :=
  if ¬ s.items.isEmpty ∧ s.selected < s.items.length - 1 then
    ⟨s.current_path, s.path_stack, s.items, s.selected + 1⟩
  else s

/-- The `KeyCode::Char(space) | KeyCode::Right` arm of the loop (descend):
join the selected entry onto the current path, list it, and descend only when
that child listing is non-empty. `items.getD selected` models the Rust index
`items[selected]`, which is in bounds on every state satisfying `navInv`. -/
def enterDir (fs : Fs) (s : NavState) : NavState :=
  if s.items.isEmpty then s
  else if (get_directories fs
      (s.current_path ++ [s.items.getD s.selected ""])).isEmpty then s
  else ⟨s.current_path ++ [s.items.getD s.selected ""],
    s.current_path :: s.path_stack,
    get_directories fs (s.current_path ++ [s.items.getD s.selected ""]), 0⟩

/-- The `KeyCode::Backspace | KeyCode::Left` arm of the loop (ascend): pop the
stack if possible, relist the popped path, reset the selection. -/
def goBack (fs : Fs) (s : NavState) : NavState :=
  match s.path_stack with
  | [] => s
  | prev :: rest => ⟨prev, rest, get_directories fs prev, 0⟩

/-- The state built at the top of `run`: current path at the root, empty
stack, fresh listing, selection 0. -/
def initState (fs : Fs) (root : List String) : NavState :=
  ⟨root, [], get_directories fs root, 0⟩

/-- The selection invariant from the data model: when the listing is
non-empty, `selected` is a valid index into it. -/
def navInv (s : NavState) : Prop :=
  s.items ≠ [] → s.selected < s.items.length

instance (s : NavState) : Decidable (navInv s) := by
  unfold navInv
  infer_instance

/-- One tmux invocation, identified by subcommand and arguments, as assembled
in `start_tmux_session`. -/
inductive Cmd where
  | hasSession (name : String)
  | newSession (name : String) (path : String)
  | splitWindow (name : String) (path : String)
  | attachSession (name : String)
deriving DecidableEq

/-- The external world the launcher talks to: for each issued command, either
the invocation itself fails (`Command::output()` or `Command::status()`
returns `Err e`, modelled as `.error e`) or it runs and reports whether its
exit status was a success (`.ok true` / `.ok false`). -/
abbrev TmuxWorld := Cmd → Except String Bool

/-- Model of `start_tmux_session` (src/main.rs lines 41-96). Returns the list
of tmux commands issued, in order, together with the `Result` value of the
function. The session name is lower-cased once and used in every command. The
`has-session` check result is inspected with `if let Ok(output)`, so both a
failed invocation and a non-success exit status fall through to the creation
sequence. -/
def start_tmux_session (w : TmuxWorld) (session_name : String)
    (project_path : String) : List Cmd × Except String Unit :=
  let name := lowercase session_name
  let c1 := Cmd.hasSession name
  match w c1 with
  | .ok true =>
    let c2 := Cmd.attachSession name
    match w c2 with
    | .error e => ([c1, c2], .error ("tmux attach failed: " ++ e))
    | .ok false => ([c1, c2], .error "tmux attach-session に失敗しました")
    | .ok true => ([c1, c2], .ok ())
  | _ =>
    let c2 := Cmd.newSession name project_path
    match w c2 with
    | .error e => ([c1, c2], .error ("tmux new-session failed: " ++ e))
    | .ok false => ([c1, c2], .error "tmux new-session に失敗しました")
    | .ok true =>
      let c3 := Cmd.splitWindow name project_path
      match w c3 with
      | .error e => ([c1, c2, c3], .error ("tmux split-window failed: " ++ e))
      | .ok false => ([c1, c2, c3], .error "tmux split-window に失敗しました")
      | .ok true =>
        let c4 := Cmd.attachSession name
        match w c4 with
        | .error e =>
          ([c1, c2, c3, c4], .error ("tmux attach failed: " ++ e))
        | .ok false =>
          ([c1, c2, c3, c4], .error "tmux attach-session に失敗しました")
        | .ok true => ([c1, c2, c3, c4], .ok ())

/-- The tail of `run` (src/main.rs lines 245-250): on `Err` from
`start_tmux_session` the error is printed and the process exits 1; otherwise
`run` falls through to `Ok(())` and the process exits 0. -/
def exitCodeAfterLaunch : Except String Unit → Nat
  | .error _ => 1
  | .ok _ => 0

/-- An OS path segment as observed by `run`: the result of `to_str()` on it,
`some s` when it is valid UTF-8, `none` otherwise. -/
structure OsName where
  utf8 : Option String
deriving DecidableEq

/-- The session-name derivation in `run` (src/main.rs lines 240-243):
`project_path.file_name().and_then(to_str).unwrap_or("default")`, applied to
the `file_name()` result of the confirmed path. -/
def session_name_of (file_name : Option OsName) : String :=
  (file_name.bind OsName.utf8).getD "default"

/-- Observable terminal-affecting steps of `run`, in program order. -/
inductive TermEvent where
  | enableRaw
  | enterAltHideCursor
  | browseLoop
  | showCursorLeaveAlt
  | disableRaw
  | printSelected
  | printCancelled
  | printError
  | exitCode (n : Nat)
deriving DecidableEq

/-- Oracle for the fallible steps of `run`: the result of each terminal-mode
call, the outcome of the browser loop closure (`Err` = render/input error,
`Ok none` = cancelled, `Ok (some p)` = confirmed path), and the result of
`start_tmux_session`. -/
structure TermOracle where
  enableRawResult : Except String Unit
  enterAltResult : Except String Unit
  loopResult : Except String (Option String)
  leaveAltResult : Except String Unit
  disableRawResult : Except String Unit
  launchResult : Except String Unit

/-- Control-flow skeleton of `run` plus `main` (src/main.rs lines 152-265) as
the sequence of terminal events it performs. `enable_raw_mode()?` and
`execute!(stdout, EnterAlternateScreen, cursor::Hide)?` propagate errors with
`?` before the loop; the loop result is captured in `result`; then
`execute!(stdout, cursor::Show, LeaveAlternateScreen)?` and
`disable_raw_mode()?` run, each propagating with `?`; finally `result` is
matched to print the outcome, and `main` prints any propagated error and
exits 1. -/
def run_trace (o : TermOracle) : List TermEvent :=
  match o.enableRawResult with
  | .error _ => [.enableRaw, .printError, .exitCode 1]
  | .ok _ =>
    match o.enterAltResult with
    | .error _ => [.enableRaw, .enterAltHideCursor, .printError, .exitCode 1]
    | .ok _ =>
      let pre := [TermEvent.enableRaw, .enterAltHideCursor, .browseLoop]
      match o.leaveAltResult with
      | .error _ => pre ++ [.showCursorLeaveAlt, .printError, .exitCode 1]
      | .ok _ =>
        match o.disableRawResult with
        | .error _ =>
          pre ++ [.showCursorLeaveAlt, .disableRaw, .printError, .exitCode 1]
        | .ok _ =>
          match o.loopResult with
          | .error _ =>
            pre ++ [.showCursorLeaveAlt, .disableRaw, .printError, .exitCode 1]
          | .ok none =>
            pre ++
              [.showCursorLeaveAlt, .disableRaw, .printCancelled, .exitCode 0]
          | .ok (some _) =>
            match o.launchResult with
            | .error _ =>
              pre ++ [.showCursorLeaveAlt, .disableRaw, .printSelected,
                .printError, .exitCode 1]
            | .ok _ =>
              pre ++
                [.showCursorLeaveAlt, .disableRaw, .printSelected, .exitCode 0]

/-- A small concrete filesystem used to instantiate the theorems: the root
holds directories `alpha` and `Beta`, a plain file, a hidden directory and a
directory whose name is not valid UTF-8; `Beta` holds `sub`, which is empty. -/
def exampleFs : Fs := fun p =>
  if p = [] then
    some [some ⟨true, some "alpha"⟩, some ⟨true, some "Beta"⟩,
      some ⟨false, some "file"⟩, some ⟨true, some ".git"⟩, some ⟨true, none⟩]
  else if p = ["Beta"] then some [some ⟨true, some "sub"⟩]
  else if p = ["Beta", "sub"] then some []
  else none

/-- World in which no session exists and every invocation succeeds. -/
def noSessionWorld : TmuxWorld := fun c =>
  match c with
  | Cmd.hasSession _ => .ok false
  | _ => .ok true

/-- World in which no session exists and `new-session` exits non-zero. -/
def newSessionFailWorld : TmuxWorld := fun c =>
  match c with
  | Cmd.hasSession _ => .ok false
  | Cmd.newSession _ _ => .ok false
  | _ => .ok true

/-- World in which the `has-session` invocation itself cannot be executed
(for example the tmux binary is missing) and every other invocation
succeeds. -/
def checkFailWorld : TmuxWorld := fun c =>
  match c with
  | Cmd.hasSession _ => .error "No such file or directory (os error 2)"
  | _ => .ok true

/-- Oracle for the run in which raw mode is enabled successfully and the
`execute!(stdout, EnterAlternateScreen, cursor::Hide)` call then fails. -/
def enterAltFailOracle : TermOracle :=
  ⟨.ok (), .error "Device not configured (os error 6)", .ok none, .ok (),
    .ok (), .ok ()⟩

theorem entryVisibleDirName_eq_some {e : FsEntry} {s : String}
    (h : entryVisibleDirName e = some s) :
    e.isDir = true ∧ e.name = some s ∧ startsWithDot s = false := by
  obtain ⟨d, n⟩ := e
  cases d with
  | false => simp [entryVisibleDirName] at h
  | true =>
    cases n with
    | none => simp [entryVisibleDirName] at h
    | some t =>
      by_cases hd : startsWithDot t = true
      · simp [entryVisibleDirName, hd] at h
      · simp only [entryVisibleDirName, Bool.not_eq_true] at h hd
        rw [hd] at h
        simp only [if_true, Bool.false_eq_true, if_false,
          Option.some.injEq] at h
        subst h
        exact ⟨rfl, rfl, hd⟩

theorem entryVisibleDirName_eq_none {e : FsEntry}
    (h : e.name = none ∨ e.isDir = false ∨
      ∃ s, e.name = some s ∧ startsWithDot s = true) :
    entryVisibleDirName e = none := by
  unfold entryVisibleDirName
  rcases h with h | h | ⟨s, hs, hdot⟩
  · split
    · rw [h]
    · rfl
  · simp [h]
  · split
    · rw [hs]
      simp [hdot]
    · rfl

/-- C6: for every input, the directory listing is sorted ascending in the
byte/codepoint order, and every listed name avoids a leading dot and comes
from an actual directory entry; a path that cannot be read yields the empty
listing rather than an error. -/
theorem get_directories_contract :
    (∀ (fs : Fs) (p : List String), fs p = none → get_directories fs p = []) ∧
    (∀ (fs : Fs) (p : List String),
      List.Sorted StrLe (get_directories fs p)) ∧
    (∀ (fs : Fs) (p : List String), ∀ s ∈ get_directories fs p,
      startsWithDot s = false ∧
      ∃ l e, fs p = some l ∧ some e ∈ l ∧ e.isDir = true ∧
        e.name = some s) := by
  refine ⟨?_, ?_, ?_⟩
  · intro fs p h
    unfold get_directories
    rw [h]
  · intro fs p
    unfold get_directories
    cases h : fs p with
    | none => exact List.sorted_nil
    | some l => exact List.sorted_insertionSort StrLe _
  · intro fs p s hs
    unfold get_directories at hs
    cases h : fs p with
    | none => rw [h] at hs; simp at hs
    | some l =>
      rw [h] at hs
      rw [List.mem_insertionSort, List.mem_filterMap] at hs
      obtain ⟨e, he, hval⟩ := hs
      obtain ⟨hd, hn, hdot⟩ := entryVisibleDirName_eq_some hval
      rw [List.mem_filterMap] at he
      obtain ⟨o, ho, hido⟩ := he
      refine ⟨hdot, l, e, rfl, ?_, hd, hn⟩
      cases o with
      | none => simp [id] at hido
      | some e2 =>
        simp only [id] at hido
        rw [hido] at ho
        exact ho

/-- Witness for C6: an unreadable path lists as empty, and the name `Beta`
listed at the example root comes from a visible directory entry. -/
theorem get_directories_contract_witness :
    get_directories exampleFs ["nope"] = [] ∧
    (startsWithDot "Beta" = false ∧
      ∃ l e, exampleFs [] = some l ∧ some e ∈ l ∧ e.isDir = true ∧
        e.name = some "Beta") :=
  ⟨get_directories_contract.1 exampleFs ["nope"] (by decide),
   get_directories_contract.2.2 exampleFs [] "Beta" (by decide)⟩

/-- C9: an entry whose name is missing or not valid UTF-8 is silently dropped
from the listing, exactly like hidden and non-directory entries. -/
theorem get_directories_excludes_invisible (p : List String)
    (l₁ l₂ : List (Option FsEntry)) (e : FsEntry)
    (h : e.name = none ∨ e.isDir = false ∨
      ∃ s, e.name = some s ∧ startsWithDot s = true) :
    get_directories (fun _ => some (l₁ ++ some e :: l₂)) p =
      get_directories (fun _ => some (l₁ ++ l₂)) p := by
  have hnone := entryVisibleDirName_eq_none h
  unfold get_directories
  simp [List.filterMap_append, List.filterMap_cons, hnone]

/-- Witness for C9: dropping a directory entry with a non-UTF-8 name does not
change the listing. -/
theorem get_directories_excludes_invisible_witness :
    get_directories
        (fun _ => some [some ⟨true, some "alpha"⟩, some ⟨true, none⟩]) [] =
      get_directories (fun _ => some [some ⟨true, some "alpha"⟩]) [] :=
  get_directories_excludes_invisible [] [some ⟨true, some "alpha"⟩] []
    ⟨true, none⟩ (Or.inl rfl)

/-- C1: from a state whose listing matches its current path, is non-empty and
whose selected entry has a non-empty child listing, Enter followed
immediately by Back (over the unchanged filesystem) restores the current
path, the history stack (hence its length) and the listing. -/
theorem enter_then_back_restores (fs : Fs) (s : NavState)
    (hne : s.items ≠ [])
    (hinv : s.items = get_directories fs s.current_path)
    (hchild :
      get_directories fs
        (s.current_path ++ [s.items.getD s.selected ""]) ≠ []) :
    (goBack fs (enterDir fs s)).current_path = s.current_path ∧
    (goBack fs (enterDir fs s)).path_stack.length = s.path_stack.length ∧
    (goBack fs (enterDir fs s)).items = s.items := by
  have he : ¬ s.items.isEmpty = true := by
    simp [List.isEmpty_iff, hne]
  have hc : ¬ (get_directories fs
      (s.current_path ++ [s.items.getD s.selected ""])).isEmpty = true := by
    rw [List.isEmpty_iff]
    exact hchild
  have hstep : enterDir fs s =
      ⟨s.current_path ++ [s.items.getD s.selected ""],
        s.current_path :: s.path_stack,
        get_directories fs (s.current_path ++ [s.items.getD s.selected ""]),
        0⟩ := by
    unfold enterDir
    rw [if_neg he, if_neg hc]
  rw [hstep]
  exact ⟨rfl, rfl, hinv.symm⟩

/-- Witness for C1 on the example filesystem, entering `Beta` and going
back. -/
theorem enter_then_back_restores_witness :
    (goBack exampleFs
      (enterDir exampleFs ⟨[], [], ["Beta", "alpha"], 0⟩)).current_path
        = [] ∧
    (goBack exampleFs
      (enterDir exampleFs ⟨[], [], ["Beta", "alpha"], 0⟩)).path_stack.length
        = List.length ([] : List (List String)) ∧
    (goBack exampleFs
      (enterDir exampleFs ⟨[], [], ["Beta", "alpha"], 0⟩)).items
        = ["Beta", "alpha"] :=
  enter_then_back_restores exampleFs ⟨[], [], ["Beta", "alpha"], 0⟩
    (by decide) (by decide) (by decide)

/-- C7: Enter is the identity on the whole navigation state whenever the
listing of the selected entry is empty. -/
theorem enter_leaf_noop (fs : Fs) (s : NavState)
    (h : get_directories fs
      (s.current_path ++ [s.items.getD s.selected ""]) = []) :
    enterDir fs s = s := by
  unfold enterDir
  by_cases he : s.items.isEmpty
  · rw [if_pos he]
  · rw [if_neg he, h]
    simp

/-- Witness for C7: entering the empty directory `sub` changes nothing. -/
theorem enter_leaf_noop_witness :
    enterDir exampleFs ⟨["Beta"], [[]], ["sub"], 0⟩ =
      ⟨["Beta"], [[]], ["sub"], 0⟩ :=
  enter_leaf_noop exampleFs ⟨["Beta"], [[]], ["sub"], 0⟩ (by decide)

/-- C8: the index invariant holds at startup, is preserved by MoveUp,
MoveDown, Enter and Back, and the selection is reset to 0 whenever Enter or
Back changes the listing. -/
theorem selected_index_invariant :
    (∀ (fs : Fs) (root : List String), navInv (initState fs root)) ∧
    (∀ s : NavState, navInv s → navInv (moveUp s)) ∧
    (∀ s : NavState, navInv s → navInv (moveDown s)) ∧
    (∀ (fs : Fs) (s : NavState), navInv s → navInv (enterDir fs s)) ∧
    (∀ (fs : Fs) (s : NavState), navInv s → navInv (goBack fs s)) ∧
    (∀ (fs : Fs) (s : NavState),
      (enterDir fs s).items ≠ s.items → (enterDir fs s).selected = 0) ∧
    (∀ (fs : Fs) (s : NavState),
      (goBack fs s).items ≠ s.items → (goBack fs s).selected = 0) := by
  refine ⟨?_, ?_, ?_, ?_, ?_, ?_, ?_⟩
  · intro fs root h
    exact List.length_pos.mpr h
  · intro s h
    unfold moveUp
    split_ifs with hc
    · intro hne
      have hlen := h hne
      show s.selected - 1 < s.items.length
      omega
    · exact h
  · intro s h
    unfold moveDown
    split_ifs with hc
    · intro hne
      have hlen := h hne
      show s.selected + 1 < s.items.length
      omega
    · exact h
  · intro fs s h
    unfold enterDir
    split_ifs with h1 h2
    · exact h
    · exact h
    · intro hne
      have hx : get_directories fs
          (s.current_path ++ [s.items.getD s.selected ""]) ≠ [] := by
        simpa [List.isEmpty_iff] using h2
      exact List.length_pos.mpr hx
  · intro fs s h
    cases hst : s.path_stack with
    | nil => simpa [goBack, hst] using h
    | cons prev rest =>
      simp only [goBack, hst]
      intro hne
      exact List.length_pos.mpr hne
  · intro fs s h
    unfold enterDir at h ⊢
    split_ifs at h ⊢ with h1 h2
    · exact absurd rfl h
    · exact absurd rfl h
    · rfl
  · intro fs s h
    cases hst : s.path_stack with
    | nil => simp [goBack, hst] at h
    | cons prev rest => simp [goBack, hst]

/-- Witness for C8: MoveDown preserves the invariant at a concrete state. -/
theorem selected_index_invariant_witness :
    navInv (moveDown ⟨[], [], ["Beta", "alpha"], 0⟩) :=
  selected_index_invariant.2.2.1 ⟨[], [], ["Beta", "alpha"], 0⟩
    (by intro h; decide)

theorem start_tmux_session_head (w : TmuxWorld) (n p : String) :
    (start_tmux_session w n p).1.head? =
      some (Cmd.hasSession (lowercase n)) := by
  dsimp only [start_tmux_session]
  repeat' split
  all_goals rfl

/-- C2: when the session does not exist (the existence check runs and exits
non-zero) and the creation steps succeed, the launcher issues exactly
`has-session`, `new-session`, `split-window`, `attach-session`, in that
order and no others, each targeting the lower-cased name. -/
theorem launch_no_session_command_sequence (w : TmuxWorld)
    (session_name project_path : String)
    (hchk : w (Cmd.hasSession (lowercase session_name)) = .ok false)
    (hnew :
      w (Cmd.newSession (lowercase session_name) project_path) = .ok true)
    (hsplit :
      w (Cmd.splitWindow (lowercase session_name) project_path) = .ok true) :
    (start_tmux_session w session_name project_path).1 =
      [Cmd.hasSession (lowercase session_name),
       Cmd.newSession (lowercase session_name) project_path,
       Cmd.splitWindow (lowercase session_name) project_path,
       Cmd.attachSession (lowercase session_name)] := by
  simp only [start_tmux_session, hchk, hnew, hsplit]
  cases h4 : w (Cmd.attachSession (lowercase session_name)) with
  | error e => rfl
  | ok b => cases b <;> rfl

/-- Witness for C2: launching `MyProj` in a world with no session issues the
four commands for `myproj`. -/
theorem launch_no_session_command_sequence_witness :
    (start_tmux_session noSessionWorld "MyProj"
      "/home/u/Developer/MyProj").1 =
      [Cmd.hasSession (lowercase "MyProj"),
       Cmd.newSession (lowercase "MyProj") "/home/u/Developer/MyProj",
       Cmd.splitWindow (lowercase "MyProj") "/home/u/Developer/MyProj",
       Cmd.attachSession (lowercase "MyProj")] :=
  launch_no_session_command_sequence noSessionWorld "MyProj"
    "/home/u/Developer/MyProj" rfl rfl rfl

/-- C3: if the existence check does not report an existing session and
`new-session` exits non-zero, only `has-session` and `new-session` are ever
issued, the create-step error is reported, and the process exit code is 1. -/
theorem launch_new_session_failure_stops (w : TmuxWorld)
    (session_name project_path : String)
    (hchk : w (Cmd.hasSession (lowercase session_name)) ≠ .ok true)
    (hnew :
      w (Cmd.newSession (lowercase session_name) project_path) = .ok false) :
    (start_tmux_session w session_name project_path).1 =
      [Cmd.hasSession (lowercase session_name),
       Cmd.newSession (lowercase session_name) project_path] ∧
    (start_tmux_session w session_name project_path).2 =
      .error "tmux new-session に失敗しました" ∧
    exitCodeAfterLaunch
      (start_tmux_session w session_name project_path).2 = 1 := by
  cases h1 : w (Cmd.hasSession (lowercase session_name)) with
  | error e => simp [start_tmux_session, h1, hnew, exitCodeAfterLaunch]
  | ok b =>
    cases b with
    | true => exact absurd h1 hchk
    | false => simp [start_tmux_session, h1, hnew, exitCodeAfterLaunch]

/-- Witness for C3 in a world where `new-session` exits non-zero. -/
theorem launch_new_session_failure_stops_witness :
    (start_tmux_session newSessionFailWorld "MyProj" "/p").1 =
      [Cmd.hasSession (lowercase "MyProj"),
       Cmd.newSession (lowercase "MyProj") "/p"] ∧
    (start_tmux_session newSessionFailWorld "MyProj" "/p").2 =
      .error "tmux new-session に失敗しました" ∧
    exitCodeAfterLaunch
      (start_tmux_session newSessionFailWorld "MyProj" "/p").2 = 1 :=
  launch_new_session_failure_stops newSessionFailWorld "MyProj" "/p"
    (by simp [newSessionFailWorld]) rfl

/-- C4 counterexample: when the `has-session` invocation itself cannot be
executed, the launcher does not report a check-failed error and does not stop;
it proceeds to `new-session` and, with the later steps succeeding, reports
overall success, so the process exits 0 rather than 1. -/
theorem check_failure_not_reported_cex :
    (start_tmux_session checkFailWorld "myproj"
      "/home/u/Developer/myproj").2 = .ok () ∧
    Cmd.newSession "myproj" "/home/u/Developer/myproj" ∈
      (start_tmux_session checkFailWorld "myproj"
        "/home/u/Developer/myproj").1 ∧
    exitCodeAfterLaunch (start_tmux_session checkFailWorld "myproj"
      "/home/u/Developer/myproj").2 = 0 :=
  ⟨rfl, by decide, rfl⟩

/-- C4 amended: a failure of the `has-session` invocation is silently
swallowed by the `if let Ok` pattern; the launcher falls through to the
no-session creation sequence, issuing `new-session`, `split-window` and
`attach-session`, and reports success when those succeed. -/
theorem check_failure_falls_through (w : TmuxWorld)
    (session_name project_path e : String)
    (hchk : w (Cmd.hasSession (lowercase session_name)) = .error e)
    (hnew :
      w (Cmd.newSession (lowercase session_name) project_path) = .ok true)
    (hsplit :
      w (Cmd.splitWindow (lowercase session_name) project_path) = .ok true)
    (hattach : w (Cmd.attachSession (lowercase session_name)) = .ok true) :
    (start_tmux_session w session_name project_path).1 =
      [Cmd.hasSession (lowercase session_name),
       Cmd.newSession (lowercase session_name) project_path,
       Cmd.splitWindow (lowercase session_name) project_path,
       Cmd.attachSession (lowercase session_name)] ∧
    (start_tmux_session w session_name project_path).2 = .ok () := by
  simp [start_tmux_session, hchk, hnew, hsplit, hattach]

/-- Witness for the amended C4: a world whose `has-session` invocation fails
still ends in a successful four-step creation sequence. -/
theorem check_failure_falls_through_witness :
    (start_tmux_session checkFailWorld "proj" "/p").1 =
      [Cmd.hasSession (lowercase "proj"),
       Cmd.newSession (lowercase "proj") "/p",
       Cmd.splitWindow (lowercase "proj") "/p",
       Cmd.attachSession (lowercase "proj")] ∧
    (start_tmux_session checkFailWorld "proj" "/p").2 = .ok () :=
  check_failure_falls_through checkFailWorld "proj" "/p"
    "No such file or directory (os error 2)" rfl rfl rfl rfl

/-- C5 (code bug): if the `execute!(stdout, EnterAlternateScreen,
cursor::Hide)` call fails right after `enable_raw_mode` succeeded, `run`
propagates the error with `?` before reaching the cleanup code, so the error
is reported and the process exits 1 while the terminal is never restored:
neither the cursor-show/leave-alternate-screen call nor `disable_raw_mode`
ever runs. -/
theorem raw_mode_not_restored_on_enter_alt_failure :
    run_trace enterAltFailOracle =
      [TermEvent.enableRaw, TermEvent.enterAltHideCursor,
        TermEvent.printError, TermEvent.exitCode 1] ∧
    TermEvent.disableRaw ∉ run_trace enterAltFailOracle ∧
    TermEvent.showCursorLeaveAlt ∉ run_trace enterAltFailOracle :=
  ⟨rfl, by decide, by decide⟩

/-- C10: when the confirmed path has no extractable final segment (absent or
not valid UTF-8), the session identifier falls back to the literal `default`,
and the launcher then targets exactly that (already lower-case) name in its
first command. -/
theorem session_name_default_fallback :
    (∀ fn : Option OsName, fn.bind OsName.utf8 = none →
      session_name_of fn = "default") ∧
    (∀ (w : TmuxWorld) (p : String),
      (start_tmux_session w (session_name_of none) p).1.head? =
        some (Cmd.hasSession "default")) := by
  constructor
  · intro fn h
    unfold session_name_of
    rw [h]
    rfl
  · intro w p
    rw [start_tmux_session_head]
    decide

/-- Witness for C10: a present but non-UTF-8 final segment yields the name
`default`. -/
theorem session_name_default_fallback_witness :
    session_name_of (some ⟨none⟩) = "default" :=
  session_name_default_fallback.1 (some ⟨none⟩) rfl

end Projector
